import Mathlib

/-!
Shallow embedding of the Phishing Detection Engine of
src/backend/app/utils/phishing_detector.py (class PhishingDetector), together
with theorems settling the specification claims about it.

Text is modelled as Lean strings, scanned as lists of characters; the
regular-expression operations of the source are implemented as explicit
character scanners with the same matching semantics; Python floats are
modelled as exact rationals; the opaque trained model is a parameter whose
calls may fail (an Except value), mirroring exceptions raised during
inference.  All definitions are executable.
-/

set_option autoImplicit false

namespace PhishingEngine

/-! ## Character predicates (ASCII, as used by the source regexes) -/

/-- Python whitespace characters, as matched by str.split, str.strip and the
regex class backslash-s (space, tab, newline, carriage return, vertical tab,
form feed). -/
def pyIsSpace (c : Char) : Bool :=
  c.toNat == 32 || c.toNat == 9 || c.toNat == 10 || c.toNat == 13 ||
  c.toNat == 11 || c.toNat == 12

def isAsciiDigit (c : Char) : Bool :=
  48 ≤ c.toNat && c.toNat ≤ 57

def isAsciiUpperAlpha (c : Char) : Bool :=
  65 ≤ c.toNat && c.toNat ≤ 90

def isAsciiLowerAlpha (c : Char) : Bool :=
  97 ≤ c.toNat && c.toNat ≤ 122

/-- Characters kept by the regex class [a-zA-Z0-9 whitespace] used in
preprocess_text step (d). -/
def isAlnumOrSpace (c : Char) : Bool :=
  isAsciiDigit c || isAsciiUpperAlpha c || isAsciiLowerAlpha c || pyIsSpace c

/-- ASCII lowercasing, as str.lower acts on ASCII letters. -/
def lowerChar (c : Char) : Char :=
  if 65 ≤ c.toNat && c.toNat ≤ 90 then Char.ofNat (c.toNat + 32) else c

/-! ## Splitting on whitespace (Python str.split with no arguments) -/

/-- Accumulating worker for splitWS; acc holds the current in-progress word
reversed. -/
def splitWSGo : List Char → List Char → List (List Char)
  | [], acc => if acc.isEmpty then [] else [acc.reverse]
  | c :: cs, acc =>
    if pyIsSpace c then
      if acc.isEmpty then splitWSGo cs [] else acc.reverse :: splitWSGo cs []
    else splitWSGo cs (c :: acc)

/-- Python str.split with no arguments: split on runs of whitespace and drop
empty pieces. -/
def splitWS (cs : List Char) : List (List Char) :=
  splitWSGo cs []

/-! ## Substring containment (Python "needle in haystack") -/

/-- Occurrence of pat as a contiguous substring of cs, the semantics of the
Python expression pat in cs. -/
def containsSub (pat cs : List Char) : Bool :=
  cs.tails.any (fun t => pat.isPrefixOf t)

/-! ## Lexical feature extraction — extract_text_features, lines 118-165 -/

/-- Urgency indicator keywords, line 125-128 of the source. -/
def urgency_words : List (List Char) :=
  (["urgent", "immediate", "expires", "limited time", "act now", "hurry",
    "final notice", "last chance", "expires today", "deadline"]).map String.data

/-- Financial and reward indicator keywords, lines 132-135. -/
def financial_words : List (List Char) :=
  (["money", "prize", "reward", "cash", "free", "win", "winner", "lottery",
    "million", "thousand", "dollars", "$", "payment", "refund"]).map String.data

/-- Threat and fear indicator keywords, lines 139-142. -/
def threat_words : List (List Char) :=
  (["suspend", "block", "close", "terminated", "legal action", "arrest",
    "fine", "penalty", "lawsuit", "court", "police", "investigation"]).map String.data

/-- Action request indicator keywords, lines 146-149. -/
def action_words : List (List Char) :=
  (["click", "verify", "confirm", "update", "download", "install",
    "provide", "send", "submit", "enter", "login", "sign in"]).map String.data

/-- Number of keywords of kws occurring as substrings of t, the semantics of
the generator sum (1 for word in kws if word in t). -/
def countHits (kws : List (List Char)) (t : List Char) : Nat :=
  (kws.filter (fun k => containsSub k t)).length

/-- Counter for maximal runs of two or more consecutive exclamation or
question marks (regex findall of the class run pattern); run is the length of
the punctuation run currently being read. -/
def countPunctGo : List Char → Nat → Nat
  | [], run => if 2 ≤ run then 1 else 0
  | c :: cs, run =>
    if c == '!' || c == '?' then countPunctGo cs (run + 1)
    else (if 2 ≤ run then 1 else 0) + countPunctGo cs 0

/-- Python str.isupper restricted to ASCII: at least one letter and no
lowercase letter. -/
def pyIsUpper (w : List Char) : Bool :=
  w.any isAsciiUpperAlpha && !(w.any isAsciiLowerAlpha)

structure TextFeatures where
  urgency_score : Nat
  financial_score : Nat
  threat_score : Nat
  action_score : Nat
  excessive_punctuation : Nat
  caps_words_count : Nat
  text_length : Nat
  word_count : Nat
deriving DecidableEq

/-- Embedding of PhishingDetector.extract_text_features (lines 118-165):
keyword counts against the lowercased text, punctuation-run count and
ALL-CAPS word count against the original-case text. -/
def extract_text_features (text : String) : TextFeatures :=
  let cs := text.data
  let low := cs.map lowerChar
  let words := splitWS cs
  { urgency_score := countHits urgency_words low
    financial_score := countHits financial_words low
    threat_score := countHits threat_words low
    action_score := countHits action_words low
    excessive_punctuation := countPunctGo cs 0
    caps_words_count := (words.filter (fun w => pyIsUpper w && 2 < w.length)).length
    text_length := cs.length
    word_count := words.length }

/-! ## URL scanning — the regex http[s]?://(...)+ of lines 58 and 80 -/

/-- Characters admitted by the body of the URL regex: the union of the classes
[a-zA-Z], [0-9], [$-_@.&+] (the contiguous range 0x24 to 0x5F) and
[!*\(\),]; the percent-digit-digit alternative is subsumed by the range. -/
def urlChar (c : Char) : Bool :=
  isAsciiLowerAlpha c || isAsciiUpperAlpha c || isAsciiDigit c ||
  (36 ≤ c.toNat && c.toNat ≤ 95) ||
  c == '!' || c == '*' || c == '\\' || c == '(' || c == ')' || c == ','

/-- Character comparison against a lowercase pattern letter; ci selects the
re.IGNORECASE behaviour used at line 81 (the substitution at line 58 is
case-sensitive, but is only applied to already-lowercased text). -/
def eqc (ci : Bool) (c pat : Char) : Bool :=
  if ci then lowerChar c == pat else c == pat

/-- Match of the literal "://" at the head of a character list. -/
def colonSlashSlash : List Char → Bool
  | ':' :: '/' :: '/' :: _ => true
  | _ => false

/-- Length of the scheme part http[s]?:// matched at the head of cs, if any
(7 without the optional s, 8 with it). -/
def schemeMatch (ci : Bool) (cs : List Char) : Option Nat :=
  match cs with
  | c1 :: c2 :: c3 :: c4 :: rest =>
    if eqc ci c1 'h' && eqc ci c2 't' && eqc ci c3 't' && eqc ci c4 'p' then
      match rest with
      | c5 :: rest5 =>
        if eqc ci c5 's' then (if colonSlashSlash rest5 then some 8 else none)
        else (if colonSlashSlash rest then some 7 else none)
      | [] => none
    else none
  | _ => none

/-- Length of a full URL match at the head of cs: the scheme followed by a
maximal non-empty run of urlChar characters (the regex body is greedy). -/
def urlTokenAt (ci : Bool) (cs : List Char) : Option Nat :=
  match schemeMatch ci cs with
  | none => none
  | some sl =>
    let body := (cs.drop sl).takeWhile urlChar
    if body.length == 0 then none else some (sl + body.length)

/-- Fuel-indexed left-to-right non-overlapping URL scan (re.findall); each
step either consumes a whole match or advances one character, so fuel equal
to the list length is always sufficient. -/
def scanURLsAux (ci : Bool) : Nat → List Char → List (List Char)
  | 0, _ => []
  | _ + 1, [] => []
  | fuel + 1, c :: cs =>
    match urlTokenAt ci (c :: cs) with
    | some n => (c :: cs).take n :: scanURLsAux ci fuel ((c :: cs).drop n)
    | none => scanURLsAux ci fuel cs

/-- All URL-like substrings of cs, in order (re.findall of the URL pattern,
line 81). -/
def scanURLs (ci : Bool) (cs : List Char) : List (List Char) :=
  scanURLsAux ci cs.length cs

/-- Fuel-indexed substitution of each URL match by a single space (re.sub of
the URL pattern at line 58). -/
def subURLsAux (ci : Bool) : Nat → List Char → List Char
  | 0, cs => cs
  | _ + 1, [] => []
  | fuel + 1, c :: cs =>
    match urlTokenAt ci (c :: cs) with
    | some n => ' ' :: subURLsAux ci fuel ((c :: cs).drop n)
    | none => c :: subURLsAux ci fuel cs

/-- Replacement of every URL match by one space. -/
def subURLs (ci : Bool) (cs : List Char) : List Char :=
  subURLsAux ci cs.length cs

/-! ## Email removal — the regex of non-space runs around an at sign, line 59 -/

/-- A maximal non-space run is matched (entirely) by the email regex exactly
when it contains an at sign with at least one non-space character on each
side. -/
def emailRun (run : List Char) : Bool :=
  ((run.drop 1).dropLast).contains '@'

/-- Emission of a completed run (held reversed in acc): replaced by a single
space when the email regex matches it, kept verbatim otherwise. -/
def emitRun (acc : List Char) : List Char :=
  if emailRun acc.reverse then [' '] else acc.reverse

/-- Accumulating worker for subEmails; whitespace separators are preserved
unchanged, as re.sub only rewrites matched spans. -/
def subEmailsGo : List Char → List Char → List Char
  | [], acc => emitRun acc
  | c :: cs, acc =>
    if pyIsSpace c then emitRun acc ++ c :: subEmailsGo cs []
    else subEmailsGo cs (c :: acc)

/-- Replacement of email-like substrings by a space (line 59). -/
def subEmails (cs : List Char) : List Char :=
  subEmailsGo cs []

/-! ## Host extraction — urlparse(url).netloc, lines 90-91 -/

/-- Skip to just past the first scheme separator "://"; for every string
produced by the URL scanner the first colon is the scheme colon and is
followed by two slashes, matching how urlparse locates the authority. -/
def afterScheme : List Char → Option (List Char)
  | ':' :: '/' :: '/' :: rest => some rest
  | _ :: cs => afterScheme cs
  | [] => none

/-- Network location of a URL: the part after "://" and before the first
slash, question mark or hash.  Mirrors urlparse including its bracket check:
a netloc containing one of the square brackets without the other raises
ValueError (Invalid IPv6 URL), modelled as none; the source's try/except
skips such URLs (lines 113-114). -/
def parseNetloc (url : List Char) : Option (List Char) :=
  match afterScheme url with
  | none => none
  | some rest =>
    let netloc := rest.takeWhile (fun c => !(c == '/' || c == '?' || c == '#'))
    if (netloc.contains '[') != (netloc.contains ']') then none else some netloc

/-! ## Suspicious-domain patterns, lines 94-105 -/

/-- Consume one or more digits (greedy) at the head of cs; none when the head
is not a digit. -/
def digitRun : List Char → Option (List Char)
  | [] => none
  | c :: rest =>
    if isAsciiDigit c then some ((c :: rest).dropWhile isAsciiDigit) else none

/-- One or more digits followed by a literal dot. -/
def digitsDot (cs : List Char) : Option (List Char) :=
  match digitRun cs with
  | some ('.' :: rest) => some rest
  | _ => none

/-- Match of the dotted-quad pattern (digits dot digits dot digits dot
digits) at the head of cs. -/
def ipv4At (cs : List Char) : Bool :=
  match digitsDot cs with
  | none => false
  | some r1 =>
    match digitsDot r1 with
    | none => false
    | some r2 =>
      match digitsDot r2 with
      | none => false
      | some r3 => (digitRun r3).isSome

/-- re.search of the dotted-quad IPv4 pattern anywhere in the domain. -/
def hasIPv4 (d : List Char) : Bool :=
  d.tails.any ipv4At

/-- Domain ends in one of the risky TLDs tk, ml, ga, cf (anchored pattern). -/
def riskyTLD (d : List Char) : Bool :=
  ([".tk", ".ml", ".ga", ".cf"]).any (fun s => s.data.isSuffixOf d)

/-- Domain contains a known URL-shortener name. -/
def shortenerHit (d : List Char) : Bool :=
  (["bit.ly", "tinyurl", "t.co", "goo.gl", "ow.ly"]).any (fun s => containsSub s.data d)

def secKeywords : List (List Char) :=
  (["secure", "verify", "update", "confirm", "account"]).map String.data

def secTLDs : List (List Char) :=
  ([".com", ".net", ".org"]).map String.data

/-- Security-themed keyword followed (anywhere later) by a dot and a common
TLD, the regex (secure|verify|update|confirm|account).*(dot)(com|net|org). -/
def secPatternHit (d : List Char) : Bool :=
  secKeywords.any (fun k =>
    d.tails.any (fun t =>
      k.isPrefixOf t && secTLDs.any (fun tl => containsSub tl (t.drop k.length))))

/-- Typosquat literals of line 104; they contain a capital I and are matched
case-sensitively against the lowercased domain, exactly as the source does. -/
def typosquatHit (d : List Char) : Bool :=
  (["paypaI", "arnazon", "googIe", "microsooft", "appIe"]).any
    (fun s => containsSub s.data d)

/-- Whether any of the five suspicious patterns of lines 94-105 matches the
domain; the source breaks after the first hit, which affects nothing beyond
recording the domain once. -/
def isSuspiciousDomain (d : List Char) : Bool :=
  hasIPv4 d || riskyTLD d || shortenerHit d || secPatternHit d || typosquatHit d

/-! ## URL feature extraction — extract_url_features, lines 75-116 -/

structure URLFeatures where
  url_count : Nat
  has_suspicious_url : Bool
  suspicious_domains : List String
deriving DecidableEq

/-- One iteration of the URL loop (lines 88-114): a URL whose host fails to
parse contributes nothing; otherwise the lowercased host is recorded (and the
flag raised) exactly when some suspicious pattern matches it. -/
def urlStep (acc : Bool × List String) (url : List Char) : Bool × List String :=
  match parseNetloc url with
  | none => acc
  | some netloc =>
    let domain := netloc.map lowerChar
    if isSuspiciousDomain domain then (true, acc.2 ++ [String.mk domain]) else acc

/-- Embedding of PhishingDetector.extract_url_features (lines 75-116). -/
def extract_url_features (text : String) : URLFeatures :=
  let urls := scanURLs true text.data
  let r := urls.foldl urlStep (false, [])
  { url_count := urls.length
    has_suspicious_url := r.1
    suspicious_domains := r.2 }

/-! ## Combined features and suspicion score — analyze_features, lines 167-186 -/

structure FeatureSet where
  url_count : Nat
  has_suspicious_url : Bool
  suspicious_domains : List String
  urgency_score : Nat
  financial_score : Nat
  threat_score : Nat
  action_score : Nat
  excessive_punctuation : Nat
  caps_words_count : Nat
  text_length : Nat
  word_count : Nat
  suspicion_score : ℚ
deriving DecidableEq

/-- The weighted suspicion combination of lines 176-184: the clamped sum of
the five factors. -/
def suspicionScore (u f th a : Nat) (url : Bool) : ℚ :=
  min ((u : ℚ) * 0.2 + (f : ℚ) * 0.15 + (th : ℚ) * 0.25 + (a : ℚ) * 0.1 +
       (if url then (1 : ℚ) else 0) * 0.3) 1

/-- Embedding of PhishingDetector.analyze_features (lines 167-186): URL and
lexical features of the raw text, merged, plus the suspicion score. -/
def analyze_features (text : String) : FeatureSet :=
  let u := extract_url_features text
  let t := extract_text_features text
  { url_count := u.url_count
    has_suspicious_url := u.has_suspicious_url
    suspicious_domains := u.suspicious_domains
    urgency_score := t.urgency_score
    financial_score := t.financial_score
    threat_score := t.threat_score
    action_score := t.action_score
    excessive_punctuation := t.excessive_punctuation
    caps_words_count := t.caps_words_count
    text_length := t.text_length
    word_count := t.word_count
    suspicion_score :=
      suspicionScore t.urgency_score t.financial_score t.threat_score
        t.action_score u.has_suspicious_url }

/-! ## Text normalization — preprocess_text, lines 49-73 -/

/-- Join word lists with single spaces. -/
def joinSpaces (ws : List (List Char)) : List Char :=
  List.intercalate [' '] ws

/-- Embedding of PhishingDetector.preprocess_text (lines 49-73) on character
lists.  The whitespace-only guard mirrors "not text.strip()"; lowercasing,
URL and email removal, the non-alphanumeric sweep and whitespace collapse
follow lines 55-63.  After the collapse the text holds only lowercase
alphanumerics and single spaces, on which nltk word_tokenize coincides with
whitespace splitting, so the token filter of line 68 acts on splitWS; stop
is the detector's stopword set. -/
def preprocess_list (stop : List (List Char)) (cs : List Char) : List Char :=
  if cs.all pyIsSpace then [] else
  let t1 := cs.map lowerChar
  let t2 := subURLs false t1
  let t3 := subEmails t2
  let t4 := t3.map (fun c => if isAlnumOrSpace c then c else ' ')
  let t5 := joinSpaces (splitWS t4)
  let toks := splitWS t5
  joinSpaces (toks.filter (fun w => !(stop.contains w) && 2 < w.length))

/-- String-level wrapper of preprocess_list. -/
def preprocess_text (stop : List (List Char)) (text : String) : String :=
  String.mk (preprocess_list stop text.data)

/-! ## Risk fusion — _calculate_risk_level, lines 248-268 -/

inductive RiskLevel where
  | very_low
  | low
  | medium
  | high
deriving DecidableEq

/-- Position of a level in the total order very_low < low < medium < high. -/
def RiskLevel.rank : RiskLevel → Nat
  | .very_low => 0
  | .low => 1
  | .medium => 2
  | .high => 3

/-- Base risk from the classifier probability alone (lines 251-258). -/
def base_risk (p : ℚ) : RiskLevel :=
  if p ≥ 0.8 then .high
  else if p ≥ 0.6 then .medium
  else if p ≥ 0.4 then .low
  else .very_low

/-- Embedding of PhishingDetector._calculate_risk_level (lines 248-268):
base level from the phishing probability, then the two escalation rules
driven by the suspicion score. -/
def calculate_risk_level (phishing_prob suspicion_score : ℚ) : RiskLevel :=
  let base := base_risk phishing_prob
  if suspicion_score ≥ 0.7 ∧ (base = .low ∨ base = .very_low) then .medium
  else if suspicion_score ≥ 0.5 ∧ base = .very_low then .low
  else base

/-! ## The orchestrator — predict and batch_predict, lines 188-276 -/

/-- The opaque trained model: its two calls may raise (modelled by Except),
mirroring model.predict and model.predict_proba of lines 216-217.  The class
call yields the predicted class (compared against 1); the probability call
yields the pair (p_legitimate, p_phishing) of the two-element array. -/
structure Model where
  predictClass : String → Except String Nat
  predictProba : String → Except String (ℚ × ℚ)

/-- Engine state: the loaded model (none when loading failed, line 20) and
the stopword set fetched at setup (lines 31-34). -/
structure Detector where
  model : Option Model
  stop_words : List (List Char)

/-- The result dictionary assembled by predict; fields absent from a branch's
dictionary are modelled as none (features none stands for the empty
dictionary of the error branch). -/
structure PredictionResult where
  prediction : String
  probability_legitimate : ℚ
  probability_phishing : ℚ
  confidence : ℚ
  features : Option FeatureSet
  raw_text : String
  risk_level : Option RiskLevel
  message : Option String
  error : Option String
deriving DecidableEq

/-- Truncated preview of the input: text[:100] plus an ellipsis when longer
than 100 characters (lines 211, 231, 245). -/
def truncPreview (text : String) : String :=
  if 100 < text.data.length then String.mk (text.data.take 100) ++ "..." else text

/-- The error-branch dictionary of lines 239-246. -/
def errorResult (e : String) (text : String) : PredictionResult :=
  { prediction := "unknown"
    probability_legitimate := 0.5
    probability_phishing := 0.5
    confidence := 0
    features := none
    raw_text := truncPreview text
    risk_level := none
    message := none
    error := some e }

/-- Whether the input is empty or whitespace-only ("not text.strip()",
line 199). -/
def allSpace (text : String) : Bool :=
  text.data.all pyIsSpace

/-- The dictionary returned by the empty-after-preprocessing short circuit
(lines 205-213); it has no risk_level key and never consults the model. -/
def shortCircuitResult (text : String) : PredictionResult :=
  { prediction := "legitimate"
    probability_legitimate := 0.9
    probability_phishing := 0.1
    confidence := 0.9
    features := some (analyze_features text)
    raw_text := truncPreview text
    risk_level := none
    message := some "Text appears empty after preprocessing"
    error := none }

/-- The dictionary assembled on the normal path (lines 222-233) from the
model's class output and probability pair. -/
def normalResult (text : String) (cls : Nat) (p0 p1 : ℚ) : PredictionResult :=
  { prediction := if cls = 1 then "phishing" else "legitimate"
    probability_legitimate := p0
    probability_phishing := p1
    confidence := max p0 p1
    features := some (analyze_features text)
    raw_text := truncPreview text
    risk_level := some (calculate_risk_level p1 (analyze_features text).suspicion_score)
    message := none
    error := none }

/-- The body of the try block of predict (lines 195-235): the missing-model
and invalid-input raises, the empty-after-preprocessing short circuit
(lines 205-213), and the normal pipeline (lines 215-233); a raised exception
is the Except.error case. -/
def tryPredict (d : Detector) (text : String) : Except String PredictionResult :=
  match d.model with
  | none => .error "Model not loaded"
  | some m =>
    if allSpace text then .error "Invalid input: text cannot be empty"
    else
      if preprocess_text d.stop_words text = "" then
        .ok (shortCircuitResult text)
      else
        match m.predictClass (preprocess_text d.stop_words text) with
        | .error e => .error e
        | .ok cls =>
          match m.predictProba (preprocess_text d.stop_words text) with
          | .error e => .error e
          | .ok (p0, p1) => .ok (normalResult text cls p0 p1)

/-- Embedding of PhishingDetector.predict (lines 188-246): the try body,
with every raised exception converted by the except clause into the
error-branch dictionary. -/
def predict (d : Detector) (text : String) : PredictionResult :=
  match tryPredict d text with
  | .ok r => r
  | .error e => errorResult e text

/-- Embedding of PhishingDetector.batch_predict (lines 270-276): the loop
appending predict of each text in order. -/
def batch_predict (d : Detector) : List String → List PredictionResult
  | [] => []
  | t :: ts => predict d t :: batch_predict d ts

/-! ## Concrete detectors and models used by witnesses and counterexamples -/

/-- Detector whose model failed to load. -/
def dNoModel : Detector :=
  { model := none, stop_words := [] }

/-- Model predicting class 1 with probabilities (0.3, 0.7); its class output
agrees with thresholding the phishing probability at one half. -/
def mClassOne : Model :=
  { predictClass := fun _ => .ok 1
    predictProba := fun _ => .ok (0.3, 0.7) }

def dClassOne : Detector :=
  { model := some mClassOne, stop_words := [] }

/-- Model whose class output (0, legitimate) disagrees with its probability
output (phishing probability 0.6). -/
def mSplit : Model :=
  { predictClass := fun _ => .ok 0
    predictProba := fun _ => .ok (0.4, 0.6) }

def dSplit : Detector :=
  { model := some mSplit, stop_words := [] }

/-! ## Shared lemmas about the orchestrator -/

/-- When the try body raises, predict returns the except-branch dictionary. -/
theorem predict_eq_of_error (d : Detector) (text : String) (e : String)
    (h : tryPredict d text = Except.error e) :
    predict d text = errorResult e text := by
  unfold predict
  rw [h]

/-- When the try body returns, predict passes its dictionary through. -/
theorem predict_eq_of_ok (d : Detector) (text : String) (r : PredictionResult)
    (h : tryPredict d text = Except.ok r) :
    predict d text = r := by
  unfold predict
  rw [h]

/-- Every dictionary produced by the try body has no error key, carries
confidence equal to the larger probability, and has a risk_level key exactly
when it has no message key (the normal branch versus the short circuit). -/
theorem tryPredict_ok_shape (d : Detector) (text : String) (r : PredictionResult)
    (h : tryPredict d text = Except.ok r) :
    r.error = none ∧
    r.confidence = max r.probability_legitimate r.probability_phishing ∧
    (r.risk_level.isSome = true ↔ r.message = none) := by
  unfold tryPredict at h
  split at h
  · simp at h
  · split at h
    · simp at h
    · split at h
      · cases h
        refine ⟨rfl, ?_, by simp [shortCircuitResult]⟩
        show (0.9 : ℚ) = max 0.9 0.1
        rw [max_eq_left (by norm_num)]
      · split at h
        · simp at h
        · split at h
          · simp at h
          · cases h
            exact ⟨rfl, rfl, by simp [normalResult]⟩

/-- The batch loop is the elementwise map of predict. -/
theorem batch_predict_eq_map (d : Detector) (ts : List String) :
    batch_predict d ts = ts.map (predict d) := by
  induction ts with
  | nil => rfl
  | cons t ts ih => simp [batch_predict, ih]

/-! ## Claim theorems -/

/-- C1: for every input string, predict returns a PredictionResult and never
raises: any failure raised inside the try body (missing model, invalid
input, model error) is caught at the orchestrator boundary and converted
into a result with label unknown, probabilities one half each, confidence
zero, and an error field carrying the diagnostic. -/
theorem C1_predict_never_raises (d : Detector) (text : String) (e : String)
    (h : tryPredict d text = Except.error e) :
    predict d text =
      { prediction := "unknown"
        probability_legitimate := 0.5
        probability_phishing := 0.5
        confidence := 0
        features := none
        raw_text := truncPreview text
        risk_level := none
        message := none
        error := some e } :=
  predict_eq_of_error d text e h

/-- Witness for C1 at the concrete detector whose model failed to load. -/
theorem C1_witness :
    predict dNoModel "hi" =
      { prediction := "unknown"
        probability_legitimate := 0.5
        probability_phishing := 0.5
        confidence := 0
        features := none
        raw_text := truncPreview "hi"
        risk_level := none
        message := none
        error := some "Model not loaded" } :=
  C1_predict_never_raises dNoModel "hi" "Model not loaded" rfl

/-- C9: batch_predict returns one result per input, in order, each equal to
predict of the corresponding text, for every list of 1 to 50 texts; in this
pure embedding each element is computed independently by predict. -/
theorem C9_batch_elementwise (d : Detector) (texts : List String)
    (h1 : 1 ≤ texts.length) (h2 : texts.length ≤ 50) :
    batch_predict d texts = texts.map (predict d) ∧
    (batch_predict d texts).length = texts.length ∧
    ∀ i (hi : i < texts.length),
      (batch_predict d texts)[i]? = some (predict d texts[i]) := by
  refine ⟨batch_predict_eq_map d texts, ?_, ?_⟩
  · rw [batch_predict_eq_map]
    exact List.length_map texts (predict d)
  · intro i hi
    rw [batch_predict_eq_map, List.getElem?_map, List.getElem?_eq_getElem hi]
    rfl

/-- Witness for C9 at a concrete one-element batch. -/
theorem C9_witness :
    batch_predict dNoModel ["a"] = (["a"] : List String).map (predict dNoModel) :=
  (C9_batch_elementwise dNoModel ["a"] (by decide) (by decide)).1

/-- C2 counterexample: the claim says escalation moves at most one step, but
with phishing probability 0 (base very_low) and suspicion score 0.7 the
first escalation rule returns medium, two steps above the base level. -/
theorem C2_counterexample :
    base_risk 0 = RiskLevel.very_low ∧
    calculate_risk_level 0 0.7 = RiskLevel.medium ∧
    (calculate_risk_level 0 0.7).rank = (base_risk 0).rank + 2 := by
  refine ⟨?_, ?_, ?_⟩ <;>
    norm_num [calculate_risk_level, base_risk, RiskLevel.rank]

/-- C2 (amended): the base level follows the stated probability thresholds,
the result follows the stated escalation rules, the returned level is never
below the base level, and escalation moves at most two steps (two are taken
when the base is very_low and the suspicion score is at least 0.7). -/
theorem C2_risk_fusion (p s : ℚ) :
    base_risk p =
      (if p ≥ 0.8 then RiskLevel.high
       else if p ≥ 0.6 then RiskLevel.medium
       else if p ≥ 0.4 then RiskLevel.low
       else RiskLevel.very_low) ∧
    calculate_risk_level p s =
      (if s ≥ 0.7 ∧ (base_risk p = RiskLevel.low ∨ base_risk p = RiskLevel.very_low) then
        RiskLevel.medium
       else if s ≥ 0.5 ∧ base_risk p = RiskLevel.very_low then RiskLevel.low
       else base_risk p) ∧
    (base_risk p).rank ≤ (calculate_risk_level p s).rank ∧
    (calculate_risk_level p s).rank ≤ (base_risk p).rank + 2 := by
  have hcalc : calculate_risk_level p s =
      (if s ≥ 0.7 ∧ (base_risk p = RiskLevel.low ∨ base_risk p = RiskLevel.very_low) then
        RiskLevel.medium
       else if s ≥ 0.5 ∧ base_risk p = RiskLevel.very_low then RiskLevel.low
       else base_risk p) := rfl
  refine ⟨rfl, hcalc, ?_, ?_⟩ <;> rw [hcalc]
  · by_cases h1 : s ≥ 0.7 ∧ (base_risk p = RiskLevel.low ∨ base_risk p = RiskLevel.very_low)
    · rw [if_pos h1]
      rcases h1.2 with hb | hb <;> rw [hb] <;> decide
    · rw [if_neg h1]
      by_cases h2 : s ≥ 0.5 ∧ base_risk p = RiskLevel.very_low
      · rw [if_pos h2, h2.2]
        decide
      · rw [if_neg h2]
  · by_cases h1 : s ≥ 0.7 ∧ (base_risk p = RiskLevel.low ∨ base_risk p = RiskLevel.very_low)
    · rw [if_pos h1]
      rcases h1.2 with hb | hb <;> rw [hb] <;> decide
    · rw [if_neg h1]
      by_cases h2 : s ≥ 0.5 ∧ base_risk p = RiskLevel.very_low
      · rw [if_pos h2, h2.2]
        decide
      · rw [if_neg h2]
        exact Nat.le_add_right _ _

/-- C3: the suspicion score equals the clamped weighted sum of the four cue
counts and the suspicious-URL flag, hence lies in the unit interval no
matter how large the counts are, and analyze_features computes its
suspicion_score field by exactly this combination of its own features. -/
theorem C3_suspicion_bounded (u f th a : Nat) (url : Bool) (text : String) :
    suspicionScore u f th a url =
      min (0.20 * (u : ℚ) + 0.15 * (f : ℚ) + 0.25 * (th : ℚ) + 0.10 * (a : ℚ) +
           0.30 * (if url then (1 : ℚ) else 0)) 1 ∧
    0 ≤ suspicionScore u f th a url ∧
    suspicionScore u f th a url ≤ 1 ∧
    (analyze_features text).suspicion_score =
      suspicionScore (analyze_features text).urgency_score
        (analyze_features text).financial_score
        (analyze_features text).threat_score
        (analyze_features text).action_score
        (analyze_features text).has_suspicious_url := by
  refine ⟨?_, ?_, min_le_right _ _, rfl⟩
  · unfold suspicionScore
    congr 1
    ring
  · unfold suspicionScore
    refine le_min ?_ zero_le_one
    cases url <;> simp <;> positivity

/-- C4 counterexample: the error-degraded result violates the claim, since
its confidence is 0 while both stored probabilities are one half. -/
theorem C4_counterexample :
    (predict dNoModel "hello").probability_legitimate = 0.5 ∧
    (predict dNoModel "hello").probability_phishing = 0.5 ∧
    (predict dNoModel "hello").confidence = 0 ∧
    (predict dNoModel "hello").confidence ≠
      max (predict dNoModel "hello").probability_legitimate
        (predict dNoModel "hello").probability_phishing := by
  refine ⟨rfl, rfl, rfl, ?_⟩
  show (0 : ℚ) ≠ max 0.5 0.5
  rw [max_self]
  norm_num

/-- C4 (amended): for every non-error result of predict (normal pipeline and
short-circuit branches) the confidence equals the larger of the two stored
probabilities; the error-degraded branch instead carries confidence 0 with
probabilities one half each. -/
theorem C4_confidence_eq_max (d : Detector) (text : String)
    (h : (predict d text).error = none) :
    (predict d text).confidence =
      max (predict d text).probability_legitimate
        (predict d text).probability_phishing := by
  rcases htp : tryPredict d text with e | r
  · rw [predict_eq_of_error d text e htp] at h
    simp [errorResult] at h
  · rw [predict_eq_of_ok d text r htp]
    exact (tryPredict_ok_shape d text r htp).2.1

/-- Witness for C4 at a concrete successful prediction. -/
theorem C4_witness :
    (predict dClassOne "hello").confidence =
      max (predict dClassOne "hello").probability_legitimate
        (predict dClassOne "hello").probability_phishing :=
  C4_confidence_eq_max dClassOne "hello" rfl

/-- C5 counterexample: the label comes from the model's class output, not
from thresholding its probability output; with a model answering class 0 but
phishing probability 0.6 the pipeline completes (no error), the phishing
probability is at least one half, yet the label is legitimate. -/
theorem C5_counterexample :
    preprocess_text [] "hello" ≠ "" ∧
    (predict dSplit "hello").error = none ∧
    (predict dSplit "hello").probability_phishing ≥ 0.5 ∧
    (predict dSplit "hello").prediction ≠ "phishing" := by
  refine ⟨by decide, rfl, ?_, by decide⟩
  show (0.6 : ℚ) ≥ 0.5
  norm_num

/-- C5 (amended): on the normal pipeline the label is phishing exactly when
the model's predicted class is 1; whenever the model's class output agrees
with thresholding its phishing probability at one half, the label is
phishing exactly when that probability is at least one half. -/
theorem C5_label_threshold (stop : List (List Char)) (m : Model) (text : String)
    (cls : Nat) (p0 p1 : ℚ)
    (hws : allSpace text = false)
    (hproc : preprocess_text stop text ≠ "")
    (hcls : m.predictClass (preprocess_text stop text) = Except.ok cls)
    (hp : m.predictProba (preprocess_text stop text) = Except.ok (p0, p1))
    (hcons : cls = 1 ↔ p1 ≥ 0.5) :
    (predict { model := some m, stop_words := stop } text).prediction =
      if p1 ≥ 0.5 then "phishing" else "legitimate" := by
  have hpred : predict { model := some m, stop_words := stop } text =
      normalResult text cls p0 p1 := by
    apply predict_eq_of_ok
    unfold tryPredict
    simp [hws, hproc, hcls, hp]
  rw [hpred]
  show (if cls = 1 then "phishing" else "legitimate") = _
  by_cases hge : p1 ≥ 0.5
  · rw [if_pos hge, if_pos (hcons.mpr hge)]
  · rw [if_neg hge, if_neg (fun hc => hge (hcons.mp hc))]

/-- Witness for C5 at a concrete model whose class output agrees with the
one-half threshold on its probabilities. -/
theorem C5_witness :
    (predict { model := some mClassOne, stop_words := [] } "hello").prediction =
      if (0.7 : ℚ) ≥ 0.5 then "phishing" else "legitimate" :=
  C5_label_threshold [] mClassOne "hello" 1 0.3 0.7 rfl (by decide) rfl rfl
    ⟨fun _ => by norm_num, fun _ => rfl⟩

/-- C6 counterexample: the single-space input is a non-empty string whose
normalized form is empty, yet predict does not short-circuit to the
legitimate result: the whitespace guard raises first and the result is the
error-degraded unknown dictionary. -/
theorem C6_counterexample :
    " " ≠ ("" : String) ∧
    preprocess_text [] " " = "" ∧
    (predict dClassOne " ").prediction = "unknown" ∧
    (predict dClassOne " ").error = some "Invalid input: text cannot be empty" := by
  exact ⟨by decide, rfl, rfl, rfl⟩

/-- C6 (amended): for every input with at least one non-whitespace character
whose normalized form is empty, predict with a loaded model short-circuits
to label legitimate, probabilities 0.9 and 0.1, confidence 0.9, features
computed from the raw text, and an explanatory message; the result does not
depend on the model, so the classifier is never consulted. -/
theorem C6_short_circuit (stop : List (List Char)) (m : Model) (text : String)
    (hws : allSpace text = false)
    (hproc : preprocess_text stop text = "") :
    predict { model := some m, stop_words := stop } text =
      { prediction := "legitimate"
        probability_legitimate := 0.9
        probability_phishing := 0.1
        confidence := 0.9
        features := some (analyze_features text)
        raw_text := truncPreview text
        risk_level := none
        message := some "Text appears empty after preprocessing"
        error := none } := by
  apply predict_eq_of_ok
  unfold tryPredict
  simp [hws, hproc, shortCircuitResult]

/-- Witness for C6 at the concrete pure-punctuation input. -/
theorem C6_witness :
    predict { model := some mClassOne, stop_words := [] } "!!!" =
      { prediction := "legitimate"
        probability_legitimate := 0.9
        probability_phishing := 0.1
        confidence := 0.9
        features := some (analyze_features "!!!")
        raw_text := truncPreview "!!!"
        risk_level := none
        message := some "Text appears empty after preprocessing"
        error := none } :=
  C6_short_circuit [] mClassOne "!!!" rfl rfl

/-- C7 counterexample: on the whitespace-only input predict does not surface
a failure to the caller; the internally raised invalid-input error is caught
by the orchestrator's own except clause and returned as the error-degraded
unknown dictionary. -/
theorem C7_counterexample :
    predict dClassOne "   " =
      { prediction := "unknown"
        probability_legitimate := 0.5
        probability_phishing := 0.5
        confidence := 0
        features := none
        raw_text := "   "
        risk_level := none
        message := none
        error := some "Invalid input: text cannot be empty" } := rfl

/-- C7 (amended): for every empty or whitespace-only input, predict with a
loaded model rejects the input before normalization or feature extraction by
raising the invalid-input error, but its own catch-all converts the failure
into the error-degraded result carrying that diagnostic, so the caller
receives a result rather than an exception. -/
theorem C7_whitespace_rejected (stop : List (List Char)) (m : Model) (text : String)
    (h : allSpace text = true) :
    predict { model := some m, stop_words := stop } text =
      { prediction := "unknown"
        probability_legitimate := 0.5
        probability_phishing := 0.5
        confidence := 0
        features := none
        raw_text := truncPreview text
        risk_level := none
        message := none
        error := some "Invalid input: text cannot be empty" } := by
  have herr : tryPredict { model := some m, stop_words := stop } text =
      Except.error "Invalid input: text cannot be empty" := by
    unfold tryPredict
    simp [h]
  exact predict_eq_of_error _ text _ herr

/-- Witness for C7 at the concrete three-space input. -/
theorem C7_witness :
    predict { model := some mClassOne, stop_words := [] } "   " =
      { prediction := "unknown"
        probability_legitimate := 0.5
        probability_phishing := 0.5
        confidence := 0
        features := none
        raw_text := truncPreview "   "
        risk_level := none
        message := none
        error := some "Invalid input: text cannot be empty" } :=
  C7_whitespace_rejected [] mClassOne "   " rfl

/-- C8 counterexample: the short-circuit branch returns successfully (no
error) yet its dictionary has no risk_level key, so not every returned
result contains one. -/
theorem C8_counterexample :
    (predict dClassOne "!!!").error = none ∧
    (predict dClassOne "!!!").message = some "Text appears empty after preprocessing" ∧
    (predict dClassOne "!!!").risk_level = none := ⟨rfl, rfl, rfl⟩

/-- C8 (amended): of the three result branches, only the normal pipeline
dictionary carries a risk_level key; the empty-after-normalization short
circuit (the branch with a message) and the error-degraded branch (the
branch with an error) omit it. -/
theorem C8_risk_level_presence (d : Detector) (text : String) :
    (predict d text).risk_level.isSome = true ↔
      ((predict d text).error = none ∧ (predict d text).message = none) := by
  rcases htp : tryPredict d text with e | r
  · rw [predict_eq_of_error d text e htp]
    simp [errorResult]
  · rw [predict_eq_of_ok d text r htp]
    obtain ⟨he, -, hrm⟩ := tryPredict_ok_shape d text r htp
    rw [he, hrm]
    simp

/-- Invariant of the URL loop: folding urlStep preserves the equivalence
between the flag and the non-emptiness of the recorded domains, and grows
the record list by at most one entry per URL. -/
theorem foldl_urlStep_invariant (urls : List (List Char)) :
    ∀ acc : Bool × List String,
      (acc.1 = true ↔ acc.2 ≠ []) →
      ((urls.foldl urlStep acc).1 = true ↔ (urls.foldl urlStep acc).2 ≠ []) ∧
      (urls.foldl urlStep acc).2.length ≤ acc.2.length + urls.length := by
  induction urls with
  | nil =>
    intro acc h
    exact ⟨h, Nat.le_add_right _ _⟩
  | cons u us ih =>
    intro acc h
    rw [List.foldl_cons]
    have hstep : ((urlStep acc u).1 = true ↔ (urlStep acc u).2 ≠ []) ∧
        (urlStep acc u).2.length ≤ acc.2.length + 1 := by
      unfold urlStep
      rcases parseNetloc u with - | netloc
      · exact ⟨h, Nat.le_succ _⟩
      · by_cases hs : isSuspiciousDomain (netloc.map lowerChar) = true
        · refine ⟨by simp [hs], by simp [hs]⟩
        · simp only [hs, if_false, Bool.false_eq_true]
          exact ⟨h, Nat.le_succ _⟩
    obtain ⟨h1, h2⟩ := ih (urlStep acc u) hstep.1
    refine ⟨h1, ?_⟩
    calc (us.foldl urlStep (urlStep acc u)).2.length
        ≤ (urlStep acc u).2.length + us.length := h2
      _ ≤ acc.2.length + 1 + us.length := Nat.add_le_add_right hstep.2 _
      _ = acc.2.length + (u :: us).length := by
          simp [List.length_cons]
          omega

/-- C10: in every extracted URL feature set the suspicious flag is raised
exactly when the suspicious-domain list is non-empty, and that list is never
longer than the URL count, since each scanned URL contributes at most one
entry (parse failures contribute nothing and the first matching pattern
records the domain once). -/
theorem C10_url_features_invariant (text : String) :
    ((extract_url_features text).has_suspicious_url = true ↔
      (extract_url_features text).suspicious_domains ≠ []) ∧
    (extract_url_features text).suspicious_domains.length ≤
      (extract_url_features text).url_count := by
  have h := foldl_urlStep_invariant (scanURLs true text.data) (false, []) (by simp)
  unfold extract_url_features
  exact ⟨h.1, by simpa using h.2⟩

end PhishingEngine
